import Mathlib

/-!
Verification of the gridfinity generator (src/app.py) against its
natural-language specification.

The generator is a pair of pure text emitters over rational parameters:
`generate_scad` (an OpenSCAD program for a tray with a grid of pockets,
optional floor-grid ribs and optional posts) and `generate_svg` (a 2-D
preview).  Python floats are embedded as rationals; numeric interpolation
into the emitted text is abstracted by `fmtQ` (every property proved below
depends only on the interpolated value, never on its digit string).
-/

/-- Numeric interpolation of a rational parameter into emitted text.
Stands in for Python float repr inside f-strings. -/
def fmtQ (q : ℚ) : String := toString q

/-- The `grid` dictionary accepted by `generate_scad` (src/app.py line 11);
the routes always populate all four keys (lines 191-196), so the `dict.get`
fallbacks for absent keys are never exercised and the fields are mandatory. -/
structure GridOpts where
  enable : Bool
  pitch : ℚ
  thickness : ℚ
  rib_height : ℚ
deriving DecidableEq

/-- The `posts` dictionary accepted by `generate_scad` (src/app.py line 11);
the routes always populate all three keys (lines 197-201). -/
structure PostsOpts where
  enable : Bool
  diameter : ℚ
  post_height : ℚ
deriving DecidableEq

/-- local `total_x = cols * cell` of `generate_scad` (src/app.py line 17). -/
def total_x (cols : ℕ) (cell : ℚ) : ℚ := cols * cell

/-- local `total_y = rows * cell` of `generate_scad` (src/app.py line 18). -/
def total_y (rows : ℕ) (cell : ℚ) : ℚ := rows * cell

/-- local `pocket_w = cell - wall - clearance` of `generate_scad`
(src/app.py line 19). -/
def pocket_w (cell wall clearance : ℚ) : ℚ := cell - wall - clearance

/-- local `pocket_h = cell - wall - clearance` of `generate_scad`
(src/app.py line 20). -/
def pocket_h (cell wall clearance : ℚ) : ℚ := cell - wall - clearance

/-- Lines appended to the `scad` list unconditionally before the optional
sections: header assignments, the `pocket` module and the `tray` module
(src/app.py lines 21-42). -/
def scadBase (cols rows : ℕ) (cell height wall clearance : ℚ) : List String :=
  ["// Generated Gridfinity SCAD",
   "cell = " ++ fmtQ cell ++ ";",
   "cols = " ++ toString cols ++ ";",
   "rows = " ++ toString rows ++ ";",
   "height = " ++ fmtQ height ++ ";",
   "wall = " ++ fmtQ wall ++ ";",
   "clearance = " ++ fmtQ clearance ++ ";",
   "module pocket() \x7b",
   "  translate([wall/2 + clearance/2, wall/2 + clearance/2, 0])",
   "    cube([" ++ fmtQ (pocket_w cell wall clearance) ++ ", "
     ++ fmtQ (pocket_h cell wall clearance) ++ ", height], center=false);",
   "\x7d",
   "// outer tray",
   "module tray() \x7b",
   "  difference() \x7b",
   "    cube([" ++ fmtQ (total_x cols cell) ++ ", " ++ fmtQ (total_y rows cell)
     ++ ", height + wall], center=false);",
   "    for (x = [0:" ++ toString (cols - 1) ++ "]) for (y = [0:"
     ++ toString (rows - 1) ++ "])",
   "      translate([x*cell, y*cell, 0]) pocket();",
   "  \x7d",
   "\x7d"]

/-- The optional floor-grid section (src/app.py lines 44-58): emitted only
when a grid dictionary is passed and its `enable` entry is truthy, mirroring
the guard `if grid and grid.get(..)` on line 45. -/
def scadGridSec (cols rows : ℕ) (cell wall : ℚ) (grid : Option GridOpts) :
    List String :=
  match grid with
  | none => []
  | some g =>
    if g.enable then
      ["module floor_grid() \x7b",
       "  union() \x7b",
       "    for (x = [" ++ fmtQ (g.thickness / 2) ++ ":" ++ fmtQ g.pitch ++ ":"
         ++ fmtQ (total_x cols cell - g.thickness / 2) ++ "]) translate([x, 0, "
         ++ fmtQ wall ++ "]) cube([" ++ fmtQ g.thickness ++ ", "
         ++ fmtQ (total_y rows cell) ++ ", " ++ fmtQ g.rib_height
         ++ "], center=false);",
       "    for (y = [" ++ fmtQ (g.thickness / 2) ++ ":" ++ fmtQ g.pitch ++ ":"
         ++ fmtQ (total_y rows cell - g.thickness / 2) ++ "]) translate([0, y, "
         ++ fmtQ wall ++ "]) cube([" ++ fmtQ (total_x cols cell) ++ ", "
         ++ fmtQ g.thickness ++ ", " ++ fmtQ g.rib_height ++ "], center=false);",
       "  \x7d",
       "\x7d",
       "floor_grid();"]
    else []

/-- One emitted post line (src/app.py line 71): a cylinder of radius
`diameter/2` and the given height, translated to `(cx, cy)` at `z = wall`. -/
def postLine (cx cy wall h r : ℚ) : String :=
  "    translate([" ++ fmtQ cx ++ ", " ++ fmtQ cy ++ ", " ++ fmtQ wall
    ++ "]) cylinder(h=" ++ fmtQ h ++ ", r=" ++ fmtQ r ++ ", $fn=32);"

/-- The optional posts section (src/app.py lines 60-74): one cylinder per
grid cell, emitted by the nested Python loops `for x in range(cols): for y in
range(rows)` with `cx = x*cell + cell/2`, `cy = y*cell + cell/2`. -/
def scadPostSec (cols rows : ℕ) (cell wall : ℚ) (posts : Option PostsOpts) :
    List String :=
  match posts with
  | none => []
  | some p =>
    if p.enable then
      ["module posts() \x7b",
       "  union() \x7b"]
      ++ ((List.range cols).flatMap fun (x : ℕ) => (List.range rows).map fun (y : ℕ) =>
            postLine ((x : ℚ) * cell + cell / 2) ((y : ℚ) * cell + cell / 2)
              wall p.post_height (p.diameter / 2))
      ++ ["  \x7d",
          "\x7d",
          "posts();"]
    else []

/-- The full `scad` list built by `generate_scad` (src/app.py lines 21-76):
base lines, then the optional floor-grid section, then the optional posts
section, then the final `tray();` invocation. -/
def scadLines (cols rows : ℕ) (cell height wall : ℚ) (clearance : ℚ)
    (grid : Option GridOpts) (posts : Option PostsOpts) : List String :=
  scadBase cols rows cell height wall clearance
    ++ scadGridSec cols rows cell wall grid
    ++ scadPostSec cols rows cell wall posts
    ++ ["tray();"]

/-- `generate_scad` (src/app.py lines 11-77): the joined document string.
The Python defaults are `clearance=0.2`, `grid=None`, `posts=None`. -/
def generate_scad (cols rows : ℕ) (cell height wall : ℚ)
    (clearance : ℚ := 1/5) (grid : Option GridOpts := none)
    (posts : Option PostsOpts := none) : String :=
  String.intercalate "\n" (scadLines cols rows cell height wall clearance grid posts)

/-- The cell enumeration denoted by the tray's pocket loop emitted on
src/app.py line 39: `for (x = [0:cols-1]) for (y = [0:rows-1])`, an OpenSCAD
double loop with `x` outermost, each range inclusive, so the cells are
`(0,0), (0,1), ..., (0,rows-1), (1,0), ...` — `y` varies fastest. -/
def scadPocketCells (cols rows : ℕ) : List (ℕ × ℕ) :=
  (List.range cols).flatMap fun (x : ℕ) => (List.range rows).map fun (y : ℕ) => (x, y)

/-- The cell enumeration of the preview's pocket loops (src/app.py lines
94-97): Python `for x in range(cols): for y in range(rows)`, again with `x`
outermost and `y` varying fastest. -/
def svgPocketCells (cols rows : ℕ) : List (ℕ × ℕ) :=
  (List.range cols).flatMap fun (x : ℕ) => (List.range rows).map fun (y : ℕ) => (x, y)

/-- Modelled from the spec: the "row-major (x fastest)" cell ordering the
spec asserts for `pocket_origins` — `y` outermost, `x` varying fastest.
Written from the spec's words for comparison with the orderings the two
emitters actually use. -/
def rowMajorCells (cols rows : ℕ) : List (ℕ × ℕ) :=
  (List.range rows).flatMap fun (y : ℕ) => (List.range cols).map fun (x : ℕ) => (x, y)

/-- The pocket origin denoted by the emitted model text: the tray loop
translates each pocket instance by `[x*cell, y*cell, 0]` (src/app.py line
40) and the pocket module itself translates by
`[wall/2 + clearance/2, wall/2 + clearance/2, 0]` (line 31). -/
def pocketOrigin (cell wall clearance : ℚ) (x y : ℕ) : ℚ × ℚ :=
  ((x : ℚ) * cell + (wall / 2 + clearance / 2),
   (y : ℚ) * cell + (wall / 2 + clearance / 2))

/-- The post centers emitted by src/app.py lines 67-70:
`cx = x*cell + cell/2`, `cy = y*cell + cell/2` for each cell, `x` outermost. -/
def postCenters (cols rows : ℕ) (cell : ℚ) : List (ℚ × ℚ) :=
  (List.range cols).flatMap fun (x : ℕ) => (List.range rows).map fun (y : ℕ) =>
    ((x : ℚ) * cell + cell / 2, (y : ℚ) * cell + cell / 2)

/-- Denotation of an emitted OpenSCAD numeric range literal `[a : s : b]`
(the floor-grid rib loops, src/app.py lines 53 and 55 — the Python code only
interpolates the three bounds into the text): the arithmetic progression
`a, a+s, a+2s, ...` including every value up to and INCLUDING `b` when hit
exactly (OpenSCAD ranges are end-inclusive); empty when the step is
non-positive or the start already exceeds the end — the tolerant-degenerate
policy the spec describes. -/
def scadRange (a s b : ℚ) : List ℚ :=
  if 0 < s ∧ a ≤ b then
    (List.range (⌊(b - a) / s⌋.toNat + 1)).map fun (i : ℕ) => a + (i : ℚ) * s
  else []

/-- The rib offsets along an axis of length `L` denoted by the emitted
floor-grid loop `for (x = [rib/2 : pitch : L - rib/2])` (src/app.py line 53;
line 55 is the same with `L = total_y`). -/
def ribOffsets (L pitch t : ℚ) : List ℚ :=
  scadRange (t / 2) pitch (L - t / 2)

/-- One emitted preview pocket rectangle (src/app.py line 98). -/
def svgRectLine (px py w h : ℚ) : String :=
  "<rect x=\"" ++ (fmtQ px ++ ("\" y=\"" ++ (fmtQ py ++ ("\" width=\""
    ++ (fmtQ w ++ ("\" height=\"" ++ (fmtQ h ++ "\" />")))))))

/-- The preview document's opening tag (src/app.py lines 85-86), whose
viewBox and pixel size are both `w × h` drawing units. -/
def svgHeaderLine (w h : ℚ) : String :=
  "<svg xmlns=\"http://www.w3.org/2000/svg\" viewBox=\""
    ++ (("0 0 " ++ (fmtQ w ++ (" " ++ fmtQ h))) ++ ("\" width=\""
    ++ (fmtQ w ++ ("px\" height=\"" ++ (fmtQ h ++ "px\">")))))

/-- The preview stylesheet line (src/app.py line 87). -/
def svgStyleLine : String :=
  "<style>rect\x7bfill:#f5f5f5;stroke:#333;stroke-width:0.5\x7d</style>"

/-- The outer-border rectangle spanning the full canvas (src/app.py line 89). -/
def svgBorderLine (w h : ℚ) : String :=
  "<rect x=\"0\" y=\"0\" width=\"" ++ (fmtQ w ++ ("\" height=\""
    ++ (fmtQ h ++ "\" fill=\"none\" stroke=\"#000\" stroke-width=\"1\"/>")))

/-- The `svg` list built by `generate_svg` (src/app.py lines 81-102):
header, style, outer border, one pocket rectangle per cell at
`(x*cell + inset, y*cell + inset)` with `inset = wall/2` and size
`cell - wall` (line 91-93), then the closing tag. -/
def svgLines (cols rows : ℕ) (cell wall : ℚ) : List String :=
  [svgHeaderLine (total_x cols cell) (total_y rows cell),
   svgStyleLine,
   svgBorderLine (total_x cols cell) (total_y rows cell)]
  ++ ((List.range cols).flatMap fun (x : ℕ) => (List.range rows).map fun (y : ℕ) =>
        svgRectLine ((x : ℚ) * cell + wall / 2) ((y : ℚ) * cell + wall / 2)
          (cell - wall) (cell - wall))
  ++ ["</svg>"]

/-- `generate_svg` (src/app.py lines 81-102): the joined preview document. -/
def generate_svg (cols rows : ℕ) (cell wall : ℚ) : String :=
  String.intercalate "\n" (svgLines cols rows cell wall)

/-- One post-marker circle injected by the preview route (src/app.py line
175). -/
def circleLine (cx cy r : ℚ) : String :=
  "<circle cx=\"" ++ (fmtQ cx ++ ("\" cy=\"" ++ (fmtQ cy ++ ("\" r=\""
    ++ (fmtQ r ++ "\" fill=\"#666\" opacity=\"0.6\" />")))))

/-- Python `str.replace` on character lists: replaces every non-overlapping
occurrence of `pat` left to right.  Structural recursion on a fuel argument
kept strictly above the remaining length; each step consumes at least one
character, so the fuel never runs out when it starts above `s.length`. -/
def replaceFuel : ℕ → List Char → List Char → List Char → List Char
  | 0, s, _, _ => s
  | _ + 1, [], _, _ => []
  | n + 1, c :: rest, pat, rep =>
    if pat.isPrefixOf (c :: rest) then
      rep ++ replaceFuel n (List.drop pat.length (c :: rest)) pat rep
    else
      c :: replaceFuel n rest pat rep

/-- Python `str.replace(pat, rep)`: all non-overlapping occurrences replaced
left to right (with the degenerate empty pattern left alone, which the
route never uses — its pattern is the closing svg tag). -/
def pyReplace (s pat rep : String) : String :=
  if pat.data = [] then s
  else ⟨replaceFuel (s.data.length + 1) s.data pat.data rep.data⟩

/-- The svg-manipulation core of the `preview_svg` route (src/app.py lines
166-178): generate the preview, then, if posts were requested, inject one
circle per cell center immediately before the closing tag by text
substitution `svg.replace(tag, markers + tag)` (line 177). -/
def previewSvg (cols rows : ℕ) (cell wall : ℚ) (post_enable : Bool)
    (post_d : ℚ) : String :=
  let svg := generate_svg cols rows cell wall
  if post_enable then
    let insert := (List.range cols).flatMap fun (x : ℕ) => (List.range rows).map fun (y : ℕ) =>
      circleLine ((x : ℚ) * cell + cell / 2) ((y : ℚ) * cell + cell / 2)
        (post_d / 2)
    pyReplace svg "</svg>" ("\n" ++ String.intercalate "\n" insert ++ "\n</svg>")
  else svg

/-- The `grid` dictionary built by the `download_scad` route when the
request carries no query parameters (src/app.py lines 191-196): the flag
default is the string "1", which is truthy, so the floor grid is ENABLED by
default at the route level. -/
def download_grid_default : GridOpts :=
  { enable := true, pitch := 6, thickness := 3/2, rib_height := 5/2 }

/-- The `posts` dictionary built by the `download_scad` route when the
request carries no query parameters (src/app.py lines 197-201): the flag
default is the string "0", so posts are disabled by default. -/
def download_posts_default : PostsOpts :=
  { enable := false, diameter := 6, post_height := 4 }

theorem cells_flatMap_map {α : Type} (cols rows : ℕ) (f : ℕ → ℕ → α) :
    ((List.range cols).flatMap fun x => (List.range rows).map fun y => f x y)
      = (svgPocketCells cols rows).map fun p => f p.1 p.2 := by
  simp only [svgPocketCells, List.map_flatMap, List.map_map]
  rfl

theorem svgPocketCells_length (cols rows : ℕ) :
    (svgPocketCells cols rows).length = cols * rows := by
  induction cols with
  | zero => simp [svgPocketCells]
  | succ n ih =>
    simp only [svgPocketCells, List.range_succ, List.flatMap_append,
      List.flatMap_singleton, List.length_append, List.length_map,
      List.length_range] at ih ⊢
    rw [ih, Nat.succ_mul]

theorem svgPocketCells_eq_div_mod (cols rows : ℕ) :
    svgPocketCells cols rows
      = (List.range (cols * rows)).map fun i => (i / rows, i % rows) := by
  rcases Nat.eq_zero_or_pos rows with hr | hr
  · subst hr; simp [svgPocketCells]
  · induction cols with
    | zero => simp [svgPocketCells]
    | succ n ih =>
      rw [show (n + 1) * rows = n * rows + rows from by ring, List.range_add,
        List.map_append, ← ih]
      simp only [svgPocketCells, List.range_succ, List.flatMap_append,
        List.flatMap_singleton, List.map_map]
      congr 1
      apply List.map_congr_left
      intro y hy
      have hylt : y < rows := List.mem_range.mp hy
      have hdiv : (n * rows + y) / rows = n := by
        rw [Nat.mul_comm n rows, Nat.mul_add_div hr, Nat.div_eq_of_lt hylt,
          Nat.add_zero]
      have hmod : (n * rows + y) % rows = y := by
        rw [Nat.mul_comm n rows, Nat.mul_add_mod, Nat.mod_eq_of_lt hylt]
      simp only [Function.comp_apply, hdiv, hmod]

theorem strData_append (a b : String) : (a ++ b).data = a.data ++ b.data := rfl

theorem getElem0_append (lit rest : String) (c : Char)
    (h : lit.data[0]? = some c) : (lit ++ rest).data[0]? = some c := by
  have hl : 0 < lit.data.length := by
    rcases List.getElem?_eq_some.mp h with ⟨hlt, _⟩
    exact hlt
  rw [strData_append, List.getElem?_append_left hl, h]

theorem getElem1_append (lit rest : String) (c : Char)
    (h : lit.data[1]? = some c) : (lit ++ rest).data[1]? = some c := by
  have hl : 1 < lit.data.length := by
    rcases List.getElem?_eq_some.mp h with ⟨hlt, _⟩
    exact hlt
  rw [strData_append, List.getElem?_append_left hl, h]

theorem str_ne_of_data_getElem_ne (s t : String) (i : ℕ) (a b : Char)
    (hs : s.data[i]? = some a) (ht : t.data[i]? = some b) (hab : a ≠ b) :
    s ≠ t := by
  intro e
  apply hab
  rw [e] at hs
  rw [hs] at ht
  exact Option.some.inj ht

/-- C1: the spec demands that generation fail with InvalidGeometry whenever
`wall + clearance >= cell`, before producing any output.  The code performs
no such validation: at the spec's own failing scenario
(`cols=1, rows=1, cell=3.1, wall=3.0, clearance=0.2`, where
`wall + clearance = 3.2 >= 3.1`) `generate_scad` still returns a complete
document ending in `tray();`, whose pocket cube line carries the negative
width `-0.1`. -/
theorem c1_no_validation_eval :
    (3 : ℚ) + 1/5 ≥ 31/10
    ∧ pocket_w (31/10) 3 (1/5) = -(1/10)
    ∧ (scadLines 1 1 (31/10) 12 3 (1/5) none none).getLast? = some "tray();"
    ∧ ("    cube([" ++ fmtQ (pocket_w (31/10) 3 (1/5)) ++ ", "
        ++ fmtQ (pocket_h (31/10) 3 (1/5)) ++ ", height], center=false);")
        ∈ scadLines 1 1 (31/10) 12 3 (1/5) none none := by
  refine ⟨by norm_num, by norm_num [pocket_w], ?_, ?_⟩
  · simp only [scadLines]
    exact List.getLast?_concat _
  · simp [scadLines, scadBase]

/-- C2: envelope `cols*cell × rows*cell`, pockets `cell - wall - clearance`
square, pocket of cell `(x,y)` translated to `x*cell, y*cell` plus the
symmetric inward inset `(wall + clearance)/2` per axis; at the spec scenario
`cols=3, rows=2, cell=51, wall=3, clearance=0.2` the envelope is
`(153, 102)`, the six pockets are `47.8` square, and pocket `(0,0)` sits at
`(1.6, 1.6)`; the envelope values are interpolated into the tray cube line
of the emitted document. -/
theorem c2_layout_formulas (cols rows x y : ℕ) (cell wall clearance : ℚ) :
    total_x cols cell = cols * cell
    ∧ total_y rows cell = rows * cell
    ∧ pocket_w cell wall clearance = cell - wall - clearance
    ∧ pocketOrigin cell wall clearance x y
        = ((x : ℚ) * cell + (wall + clearance) / 2,
           (y : ℚ) * cell + (wall + clearance) / 2)
    ∧ total_x 3 51 = 153
    ∧ total_y 2 51 = 102
    ∧ pocket_w 51 3 (1/5) = 47.8
    ∧ (scadPocketCells 3 2).length = 6
    ∧ pocketOrigin 51 3 (1/5) 0 0 = (1.6, 1.6)
    ∧ ("    cube([" ++ fmtQ (total_x 3 51) ++ ", " ++ fmtQ (total_y 2 51)
        ++ ", height + wall], center=false);")
        ∈ scadLines 3 2 51 12 3 (1/5) none none := by
  refine ⟨rfl, rfl, rfl, ?_, by norm_num [total_x], by norm_num [total_y],
    by norm_num [pocket_w], by decide, by norm_num [pocketOrigin], ?_⟩
  · simp only [pocketOrigin, Prod.mk.injEq]
    constructor <;> ring_nf
  · simp [scadLines, scadBase]

/-- C7: the claim that both emitters enumerate pockets in the SAME order is
true, but the order is not "row-major (x fastest)": both emitted loops put
`x` outermost, so `y` varies fastest.  On a 2-by-2 grid the emitters
enumerate `(0,0),(0,1),(1,0),(1,1)` while the spec's row-major order is
`(0,0),(1,0),(0,1),(1,1)`. -/
theorem c7_order_counterexample :
    svgPocketCells 2 2 = [(0,0),(0,1),(1,0),(1,1)]
    ∧ rowMajorCells 2 2 = [(0,0),(1,0),(0,1),(1,1)]
    ∧ svgPocketCells 2 2 ≠ rowMajorCells 2 2
    ∧ scadPocketCells 2 2 = svgPocketCells 2 2 := by decide

/-- C7 (amended): the model-text emitter and the preview emitter enumerate
their pocket rectangles over the same ordering, which iterates `x` in the
outer loop and `y` in the inner loop (`y` fastest): cell number `i` is
`(i / rows, i % rows)`, and the preview's rectangle list is exactly the
image of that enumeration. -/
theorem c7_same_ordering (cols rows : ℕ) (cell wall : ℚ) :
    scadPocketCells cols rows = svgPocketCells cols rows
    ∧ scadPocketCells cols rows
        = (List.range (cols * rows)).map (fun i => (i / rows, i % rows))
    ∧ ((List.range cols).flatMap fun (xc : ℕ) => (List.range rows).map fun (yc : ℕ) =>
        svgRectLine ((xc : ℚ) * cell + wall / 2) ((yc : ℚ) * cell + wall / 2)
          (cell - wall) (cell - wall))
        = (svgPocketCells cols rows).map fun p =>
            svgRectLine ((p.1 : ℚ) * cell + wall / 2)
              ((p.2 : ℚ) * cell + wall / 2) (cell - wall) (cell - wall) :=
  ⟨rfl, svgPocketCells_eq_div_mod cols rows,
    cells_flatMap_map cols rows fun xc yc =>
      svgRectLine ((xc : ℚ) * cell + wall / 2) ((yc : ℚ) * cell + wall / 2)
        (cell - wall) (cell - wall)⟩

/-- C8: both generators are pure functions of their arguments; two calls
with identical arguments produce identical output strings. -/
theorem c8_deterministic (cols rows : ℕ) (cell height wall clearance : ℚ)
    (grid : Option GridOpts) (posts : Option PostsOpts) :
    generate_scad cols rows cell height wall clearance grid posts
      = generate_scad cols rows cell height wall clearance grid posts
    ∧ generate_svg cols rows cell wall = generate_svg cols rows cell wall :=
  ⟨rfl, rfl⟩

/-- C9: `generate_scad` is total and performs no geometric validation: for
every input — in particular when `wall + clearance >= cell` — it returns a
complete document whose final line is the `tray();` invocation. -/
theorem c9_total (cols rows : ℕ) (cell height wall clearance : ℚ)
    (grid : Option GridOpts) (posts : Option PostsOpts) :
    (scadLines cols rows cell height wall clearance grid posts).getLast?
      = some "tray();"
    ∧ generate_scad cols rows cell height wall clearance grid posts
      = String.intercalate "\n"
          (scadLines cols rows cell height wall clearance grid posts) := by
  constructor
  · simp only [scadLines]
    exact List.getLast?_concat _
  · rfl

/-- C5: the preview document is the header sized `cols*cell` by `rows*cell`
(viewBox and pixel size), the stylesheet, one outer-border rectangle
spanning the full canvas, one rectangle per pocket — the pocket of cell
`(x,y)` at `(x*cell + wall/2, y*cell + wall/2)` sized
`(cell - wall, cell - wall)`, using `wall` only — and the closing tag;
there are exactly `cols * rows` pocket rectangles. -/
theorem c5_preview_structure (cols rows : ℕ) (cell wall : ℚ) :
    svgLines cols rows cell wall
      = [svgHeaderLine ((cols : ℚ) * cell) ((rows : ℚ) * cell), svgStyleLine,
         svgBorderLine ((cols : ℚ) * cell) ((rows : ℚ) * cell)]
        ++ (svgPocketCells cols rows).map (fun p =>
             svgRectLine ((p.1 : ℚ) * cell + wall / 2)
               ((p.2 : ℚ) * cell + wall / 2) (cell - wall) (cell - wall))
        ++ ["</svg>"]
    ∧ ((svgPocketCells cols rows).map (fun p =>
         svgRectLine ((p.1 : ℚ) * cell + wall / 2)
           ((p.2 : ℚ) * cell + wall / 2) (cell - wall) (cell - wall))).length
        = cols * rows := by
  constructor
  · simp only [svgLines, total_x, total_y,
      cells_flatMap_map cols rows fun (xc : ℕ) (yc : ℕ) =>
        svgRectLine ((xc : ℚ) * cell + wall / 2) ((yc : ℚ) * cell + wall / 2)
          (cell - wall) (cell - wall)]
  · rw [List.length_map, svgPocketCells_length]

/-- C6: with posts enabled, the posts section of the emitted model text is
the `posts` module containing exactly one cylinder line per grid cell —
radius `diameter/2`, the given height, at `z = wall` — over the cell-center
positions `(x*cell + cell/2, y*cell + cell/2)`; the section is an infix of
the full document; there are `cols * rows` centers, and on a 2-by-2 grid of
`cell = 51` they are `(25.5,25.5),(25.5,76.5),(76.5,25.5),(76.5,76.5)` (the
same four the spec lists, in the emitters' x-outer order). -/
theorem c6_posts_structure (cols rows : ℕ) (cell height wall clearance : ℚ)
    (grid : Option GridOpts) (d h : ℚ) :
    scadPostSec cols rows cell wall (some ⟨true, d, h⟩)
      = ["module posts() \x7b", "  union() \x7b"]
        ++ (postCenters cols rows cell).map
            (fun c => postLine c.1 c.2 wall h (d / 2))
        ++ ["  \x7d", "\x7d", "posts();"]
    ∧ postCenters cols rows cell
        = (svgPocketCells cols rows).map (fun p =>
            ((p.1 : ℚ) * cell + cell / 2, (p.2 : ℚ) * cell + cell / 2))
    ∧ (postCenters cols rows cell).length = cols * rows
    ∧ List.IsInfix (scadPostSec cols rows cell wall (some ⟨true, d, h⟩))
        (scadLines cols rows cell height wall clearance grid (some ⟨true, d, h⟩))
    ∧ postCenters 2 2 51
        = [(25.5, 25.5), (25.5, 76.5), (76.5, 25.5), (76.5, 76.5)] := by
  have hpc : postCenters cols rows cell
      = (svgPocketCells cols rows).map (fun p =>
          ((p.1 : ℚ) * cell + cell / 2, (p.2 : ℚ) * cell + cell / 2)) :=
    cells_flatMap_map cols rows fun (x : ℕ) (y : ℕ) =>
      ((x : ℚ) * cell + cell / 2, (y : ℚ) * cell + cell / 2)
  refine ⟨?_, hpc, ?_, ?_, ?_⟩
  · simp only [scadPostSec, if_pos]
    rw [hpc, List.map_map,
      cells_flatMap_map cols rows fun (x : ℕ) (y : ℕ) =>
        postLine ((x : ℚ) * cell + cell / 2) ((y : ℚ) * cell + cell / 2)
          wall h (d / 2)]
    rfl
  · rw [hpc, List.length_map, svgPocketCells_length]
  · exact ⟨scadBase cols rows cell height wall clearance
        ++ scadGridSec cols rows cell wall grid, ["tray();"], rfl⟩
  · simp only [postCenters, List.range_succ, List.range_zero,
      List.nil_append, List.flatMap_append, List.flatMap_singleton,
      List.flatMap_cons, List.flatMap_nil, List.map_append, List.map_cons,
      List.map_nil, List.append_nil]
    norm_num

/-- C4 counterexample: the claim says a generation request that does not
specify the features yields output with no floor-grid section; but the
download route's flag default for the grid is the truthy string "1", so a
request with no query parameters builds `download_grid_default` with
`enable = true` and the resulting document DOES contain the floor-grid
section (here at the route's default parameters
`cols=3, rows=2, cell=51, height=12, wall=3, clearance=0.2`). -/
theorem c4_grid_default_counterexample :
    "floor_grid();" ∈ scadLines 3 2 51 12 3 (1/5)
      (some download_grid_default) (some download_posts_default) := by
  simp [scadLines, scadGridSec, download_grid_default]

/-- C4 (amended): posts default to disabled, but the floor grid defaults to
ENABLED in the request routes: at the routes' default parameters the
document contains the floor-grid section and an empty posts section, while
the pure generator's own defaults (`grid=None`, `posts=None`) yield neither
section. -/
theorem c4_defaults_amended :
    scadPostSec 3 2 51 3 (some download_posts_default) = []
    ∧ scadLines 3 2 51 12 3 (1/5) (some download_grid_default)
        (some download_posts_default)
      = scadBase 3 2 51 12 3 (1/5)
        ++ scadGridSec 3 2 51 3 (some download_grid_default) ++ ["tray();"]
    ∧ "floor_grid();" ∈ scadLines 3 2 51 12 3 (1/5)
        (some download_grid_default) (some download_posts_default)
    ∧ scadGridSec 3 2 51 3 none = []
    ∧ scadPostSec 3 2 51 3 none = []
    ∧ scadLines 3 2 51 12 3 (1/5) none none
      = scadBase 3 2 51 12 3 (1/5) ++ ["tray();"] := by
  refine ⟨rfl, ?_, ?_, rfl, rfl, ?_⟩
  · simp [scadLines, scadPostSec, download_posts_default]
  · simp [scadLines, scadGridSec, download_grid_default]
  · simp [scadLines, scadGridSec, scadPostSec]

/-- C3 counterexample: the emitted rib range is end-inclusive (OpenSCAD
range semantics), so the offsets do NOT stop strictly before
`L - rib_thickness/2`: with `L = 13`, `pitch = 6`, `t = 1` the emitted
range `[0.5 : 6 : 12.5]` denotes `0.5, 6.5, 12.5`, whose last offset equals
the bound `L - t/2 = 12.5` — while the claim's own count formula
`floor((L - t)/p) + 1 = 3` does hold, contradicting the strict stop. -/
theorem c3_inclusive_bound_counterexample :
    ribOffsets 13 6 1 = [1/2, 13/2, 25/2]
    ∧ (25 : ℚ)/2 ∈ ribOffsets 13 6 1
    ∧ ¬ ((25 : ℚ)/2 < 13 - 1/2)
    ∧ (ribOffsets 13 6 1).length = 3 := by
  have hlist : ribOffsets 13 6 1 = [1/2, 13/2, 25/2] := by
    norm_num [ribOffsets, scadRange]
    simp only [show Int.toNat 2 + 1 = 3 from rfl, List.range_succ,
      List.range_zero]
    simp
    norm_num
  refine ⟨hlist, ?_, by norm_num, by rw [hlist]; rfl⟩
  rw [hlist]
  simp

/-- C3 (amended): the rib offsets along an axis of length `L` start at
`rib_thickness/2` and step by `pitch`, stopping at or before
`L - rib_thickness/2` (the bound is inclusive when hit exactly); the
sequence is empty — no ribs, no error — when `pitch <= 0` or the first
offset already exceeds the stop bound; for `pitch > 0` the rib count equals
`floor((L - t)/p) + 1` when `t/2 <= L - t/2`, else 0. -/
theorem c3_rib_offsets (L p t : ℚ) :
    (p ≤ 0 ∨ L - t / 2 < t / 2 → ribOffsets L p t = [])
    ∧ (0 < p → t / 2 ≤ L - t / 2 →
        (ribOffsets L p t).length = ⌊(L - t) / p⌋.toNat + 1
        ∧ (∀ i : ℕ, i < (ribOffsets L p t).length →
            (ribOffsets L p t)[i]? = some (t / 2 + (i : ℚ) * p))
        ∧ (∀ o ∈ ribOffsets L p t, o ≤ L - t / 2)) := by
  constructor
  · intro hdeg
    rw [ribOffsets, scadRange, if_neg]
    rintro ⟨hp, hab⟩
    rcases hdeg with hd | hd
    · exact absurd hp (not_lt.mpr hd)
    · exact absurd hab (not_le.mpr hd)
  · intro hp hab
    have hba : L - t / 2 - t / 2 = L - t := by ring
    have hlist : ribOffsets L p t
        = (List.range (⌊(L - t) / p⌋.toNat + 1)).map
            (fun (i : ℕ) => t / 2 + (i : ℚ) * p) := by
      rw [ribOffsets, scadRange, if_pos ⟨hp, hab⟩, hba]
    have hLt : (0 : ℚ) ≤ L - t := by linarith
    have hfl : (0 : ℤ) ≤ ⌊(L - t) / p⌋ :=
      Int.floor_nonneg.mpr (div_nonneg hLt (le_of_lt hp))
    refine ⟨by rw [hlist]; simp, ?_, ?_⟩
    · intro i hi
      rw [hlist] at hi ⊢
      rw [List.length_map, List.length_range] at hi
      rw [List.getElem?_map, List.getElem?_range hi]
      rfl
    · intro o ho
      rw [hlist] at ho
      rcases List.mem_map.mp ho with ⟨i, hi, rfl⟩
      have hile : (i : ℤ) ≤ ⌊(L - t) / p⌋ := by
        have : i < ⌊(L - t) / p⌋.toNat + 1 := List.mem_range.mp hi
        omega
      have hiq : (i : ℚ) ≤ (L - t) / p := by
        exact_mod_cast Int.le_floor.mp hile
      have hmul : (i : ℚ) * p ≤ L - t := by
        rwa [le_div_iff₀ hp] at hiq
      linarith

/-- C3 witness: with `pitch = 0` the rib sequence is empty, and at the
spec's own floor-grid scenario (`L = 153`, `pitch = 6`, `t = 1.5`) the
count formula applies. -/
theorem c3_rib_offsets_witness :
    ribOffsets 153 0 (3/2) = []
    ∧ (ribOffsets 153 6 (3/2)).length = ⌊((153 : ℚ) - 3/2) / 6⌋.toNat + 1 :=
  ⟨(c3_rib_offsets 153 0 (3/2)).1 (Or.inl (by norm_num)),
   ((c3_rib_offsets 153 6 (3/2)).2 (by norm_num) (by norm_num)).1⟩

theorem circleLine_get1 (cx cy r : ℚ) :
    (circleLine cx cy r).data[1]? = some 'c' :=
  getElem1_append "<circle cx=\"" _ 'c' (by decide)

theorem svgHeaderLine_get1 (w h : ℚ) :
    (svgHeaderLine w h).data[1]? = some 's' :=
  getElem1_append "<svg xmlns=\"http://www.w3.org/2000/svg\" viewBox=\"" _ 's'
    (by decide)

theorem svgBorderLine_get1 (w h : ℚ) :
    (svgBorderLine w h).data[1]? = some 'r' :=
  getElem1_append "<rect x=\"0\" y=\"0\" width=\"" _ 'r' (by decide)

theorem svgRectLine_get1 (px py w h : ℚ) :
    (svgRectLine px py w h).data[1]? = some 'r' :=
  getElem1_append "<rect x=\"" _ 'r' (by decide)

/-- C10: the pure preview function never emits post markers — no line of
its output is a circle element, and the document ends with the closing svg
tag; the route adds circles only by text substitution on the finished
document, inserting them immediately before the closing tag (shown here at
a concrete request: the substituted document is the original minus its
closing tag, then the markers, then the closing tag), and with markers not
requested the route returns the preview unchanged. -/
theorem c10_no_circles (cols rows : ℕ) (cell wall d cx cy r : ℚ) :
    (svgLines cols rows cell wall).getLast? = some "</svg>"
    ∧ circleLine cx cy r ∉ svgLines cols rows cell wall
    ∧ previewSvg cols rows cell wall false d = generate_svg cols rows cell wall
    ∧ previewSvg 1 1 4 2 true 6
      = String.intercalate "\n" ((svgLines 1 1 4 2).dropLast)
        ++ "\n" ++ ("\n" ++ circleLine 2 2 3 ++ "\n</svg>") := by
  refine ⟨?_, ?_, rfl, ?_⟩
  · simp only [svgLines]
    exact List.getLast?_concat _
  · intro hmem
    have hc := circleLine_get1 cx cy r
    simp only [svgLines, List.mem_append, List.mem_cons, List.mem_flatMap,
      List.mem_map, List.not_mem_nil, or_false, List.mem_singleton] at hmem
    rcases hmem with ((h | h | h) | ⟨a, ha, b, hb, h⟩) | h
    · exact str_ne_of_data_getElem_ne _ _ 1 'c' 's' hc
        (svgHeaderLine_get1 _ _) (by decide) h
    · exact str_ne_of_data_getElem_ne _ _ 1 'c' 's' hc (by decide)
        (by decide) h
    · exact str_ne_of_data_getElem_ne _ _ 1 'c' 'r' hc
        (svgBorderLine_get1 _ _) (by decide) h
    · exact str_ne_of_data_getElem_ne _ _ 1 'c' 'r' hc
        (svgRectLine_get1 _ _ _ _) (by decide) h.symm
    · exact str_ne_of_data_getElem_ne _ "</svg>" 1 'c' '/' hc (by decide)
        (by decide) h
  · norm_num [previewSvg, generate_svg, svgLines, svgHeaderLine,
      svgStyleLine, svgBorderLine, svgRectLine, circleLine, total_x, total_y,
      List.range_succ, List.range_zero, List.flatMap_append,
      List.flatMap_singleton, List.flatMap_cons, List.flatMap_nil,
      List.map_cons, List.map_nil, List.append_nil, List.nil_append]
    set_option maxRecDepth 100000 in decide
